import Mathlib

/-!
Verification of the CS330 final-project renderer (SceneManager.cpp and
ViewManager.cpp) against its natural-language specification.

The two C++ translation units are shallowly embedded:

* `SceneManager` keeps a fixed-capacity texture table (modelled as the list
  of its loaded prefix, since every loop scans indices `< m_loadedTextures`)
  and a material list; drawing publishes named shader uniforms and issues
  mesh draw requests, which we record as a `TraceEvent` list in program
  order.  Scalar literals of the source are carried exactly as rationals.
* `ViewManager` holds a camera plus the namespace-scope globals
  (last cursor position, first-mouse flag, yaw, pitch, projection flag);
  callbacks and keyboard processing are state-transition functions.  The
  trigonometric camera mathematics is embedded over the reals.

External collaborators (image decoder, GPU, windowing system) appear as
parameters: an image decode result, opaque GPU texture ids, and key states.
-/

/-! ### Scene Composer data model (SceneManager.cpp) -/

/-- One entry of the `m_textureIDs` table: a tag string and the opaque
OpenGL texture id that `glGenTextures` produced for it. -/
structure TextureEntry where
  tag : String
  ID : Int
  deriving DecidableEq

/-- The `OBJECT_MATERIAL` record: ambient color, ambient strength,
diffuse color, specular color, shininess and the lookup tag.  Color
components and scalars are the source's float literals, carried as
rationals. -/
structure OBJECT_MATERIAL where
  ambientColor : ℚ × ℚ × ℚ
  ambientStrength : ℚ
  diffuseColor : ℚ × ℚ × ℚ
  specularColor : ℚ × ℚ × ℚ
  shininess : ℚ
  tag : String
  deriving DecidableEq

/-- The mesh kinds the `ShapeMeshes` provider can load and draw. -/
inductive MeshKind where
  | plane
  | box
  | cylinder
  | taperedCylinder
  | cone
  | torus
  deriving DecidableEq

/-- Mutable state of a `SceneManager`: the loaded prefix of the 16-slot
`m_textureIDs` array (the constructor sets `m_loadedTextures = 0`, and every
scan is bounded by `m_loadedTextures`, so the list of loaded entries is a
faithful model) and the `m_objectMaterials` vector. -/
structure SceneManagerState where
  textureIDs : List TextureEntry
  objectMaterials : List OBJECT_MATERIAL
  deriving DecidableEq

/-- State after `SceneManager::SceneManager`: no loaded textures, no
materials. -/
def initialSceneState : SceneManagerState :=
  { textureIDs := [], objectMaterials := [] }

/-- A shader-uniform publication or mesh draw request, recorded in program
order.  `setMat4Model` carries the scale / rotation-degrees / position
parameters from which `SetTransformations` builds the published matrix
(the matrix value itself is `modelMatrix` below, over the reals).  The
material events are the five `material.*` uniform stores issued by
`SetShaderMaterial`. -/
inductive TraceEvent where
  | setMat4Model (sx sy sz rx ry rz px py pz : ℚ)
  | setUseTexture (v : Bool)
  | setSampler (slot : Int)
  | setVec4Color (r g b a : ℚ)
  | setUVScale (u v : ℚ)
  | setMatAmbientColor (c : ℚ × ℚ × ℚ)
  | setMatAmbientStrength (v : ℚ)
  | setMatDiffuseColor (c : ℚ × ℚ × ℚ)
  | setMatSpecularColor (c : ℚ × ℚ × ℚ)
  | setMatShininess (v : ℚ)
  | draw (kind : MeshKind)
  deriving DecidableEq

/-- The result the external `stbi_load` decoder hands back: failure, or a
successfully parsed image with its width, height and channel count (the
pixel data itself never influences control flow and is elided). -/
inductive DecodeResult where
  | failure
  | success (width height channels : Int)
  deriving DecidableEq

/-- Embeds `SceneManager::CreateGLTexture`: on decode failure return `false` with
the table untouched; on success, accept only channel counts 3 (RGB) and 4
(RGBA) — any other count prints a diagnostic and returns `false` before the
registration lines run — and on acceptance append the `(tag, id)` entry at
index `m_loadedTextures` and bump the count.  `newID` stands for the id
`glGenTextures` produced. -/
def CreateGLTexture (s : SceneManagerState) (decoded : DecodeResult)
    (newID : Int) (tag : String) : Bool × SceneManagerState :=
  match decoded with
  | .failure => (false, s)
  | .success _ _ channels =>
    if channels = 3 ∨ channels = 4 then
      (true, { s with textureIDs := s.textureIDs ++ [⟨tag, newID⟩] })
    else
      (false, s)

/-- Loop body of `SceneManager::FindTextureSlot` / `FindTextureID`: walk the
loaded entries with the running index, stop at the first entry whose tag
compares equal, otherwise fall off the end with the sentinel `-1`. -/
def findSlotAux : List TextureEntry → String → Int → Int
  | [], _, _ => -1
  | e :: rest, tag, idx =>
    if e.tag = tag then idx else findSlotAux rest tag (idx + 1)

/-- Embeds `SceneManager::FindTextureSlot`: first-match linear scan over the loaded
entries returning the slot index, `-1` when no entry matches. -/
def FindTextureSlot (s : SceneManagerState) (tag : String) : Int :=
  findSlotAux s.textureIDs tag 0

/-- Loop body of `SceneManager::FindTextureID`: same scan, but the first
match yields the stored OpenGL id instead of the index. -/
def findIDAux : List TextureEntry → String → Int
  | [], _ => -1
  | e :: rest, tag => if e.tag = tag then e.ID else findIDAux rest tag

/-- Embeds `SceneManager::FindTextureID`: first-match linear scan returning the
stored texture id, `-1` when no entry matches. -/
def FindTextureID (s : SceneManagerState) (tag : String) : Int :=
  findIDAux s.textureIDs tag

/-- First material in the list whose tag compares equal, if any — the value
the `while` loop of `SceneManager::FindMaterial` copies into its out
parameter. -/
def findMaterialEntry : List OBJECT_MATERIAL → String → Option OBJECT_MATERIAL
  | [], _ => none
  | m :: rest, tag => if m.tag = tag then some m else findMaterialEntry rest tag

/-- Embeds `SceneManager::FindMaterial`: returns `false` only when the material
list is empty; otherwise it scans for the tag, copies the five shading
fields into the out parameter on a match — and then returns the literal
`true` regardless of whether anything matched.  The pair is (returned bool,
out-parameter contents when written). -/
def FindMaterial (s : SceneManagerState) (tag : String) :
    Bool × Option OBJECT_MATERIAL :=
  if s.objectMaterials.length = 0 then
    (false, none)
  else
    (true, findMaterialEntry s.objectMaterials tag)

/-- Embeds `SceneManager::SetTransformations`: builds
`translation * rotationX * rotationY * rotationZ * scale` and publishes it
as the `model` uniform; the event records the nine parameters that
determine the published matrix. -/
def SetTransformations (sx sy sz rx ry rz px py pz : ℚ) : List TraceEvent :=
  [.setMat4Model sx sy sz rx ry rz px py pz]

/-- Embeds `SceneManager::SetShaderColor`: publishes the `objectColor` vec4. -/
def SetShaderColor (r g b a : ℚ) : List TraceEvent :=
  [.setVec4Color r g b a]

/-- Embeds `SceneManager::SetShaderTexture`: sets the `bUseTexture` flag to true
and publishes the slot `FindTextureSlot` resolved (possibly `-1`) as the
`objectTexture` sampler uniform. -/
def SetShaderTexture (s : SceneManagerState) (tag : String) : List TraceEvent :=
  [.setUseTexture true, .setSampler (FindTextureSlot s tag)]

/-- Embeds `SceneManager::SetTextureUVScale`: publishes the `UVscale` vec2. -/
def SetTextureUVScale (u v : ℚ) : List TraceEvent :=
  [.setUVScale u v]

/-- Embeds `SceneManager::SetShaderMaterial`: when the material list is nonempty,
call `FindMaterial` with a default-constructed (uninitialized) local
`OBJECT_MATERIAL` — modelled by the `localInit` parameter — and, when the
returned bool is true, publish the five `material.*` uniforms from that
local, which holds the looked-up values on a match and the indeterminate
initial contents otherwise. -/
def SetShaderMaterial (s : SceneManagerState) (localInit : OBJECT_MATERIAL)
    (tag : String) : List TraceEvent :=
  if s.objectMaterials.length > 0 then
    let r := FindMaterial s tag
    let m := r.2.getD localInit
    if r.1 then
      [.setMatAmbientColor m.ambientColor,
       .setMatAmbientStrength m.ambientStrength,
       .setMatDiffuseColor m.diffuseColor,
       .setMatSpecularColor m.specularColor,
       .setMatShininess m.shininess]
    else []
  else []

/-! ### Scene setup (LoadSceneTextures, DefineObjectMaterials,
SetupSceneLights, PrepareScene) -/

/-- Embeds `SceneManager::LoadSceneTextures`: the eight `CreateGLTexture` calls in
source order, each driven by the external decoder's result for its file
(`decode`) and an opaque generated id (modelled as the call number), then
`BindGLTextures` (pure GPU side effect, no table change). -/
def LoadSceneTextures (decode : String → DecodeResult)
    (s : SceneManagerState) : SceneManagerState :=
  let s := (CreateGLTexture s (decode "ceramicTexture.jpg") 1 "mug").2
  let s := (CreateGLTexture s (decode "stoneTexture.jpg") 2 "table").2
  let s := (CreateGLTexture s (decode "blackPlasticTexture.jpg") 3 "blackPlastic").2
  let s := (CreateGLTexture s (decode "whitePlasticTexture.jpg") 4 "whitePlastic").2
  let s := (CreateGLTexture s (decode "bluePlasticTexture.jpg") 5 "bluePlastic").2
  let s := (CreateGLTexture s (decode "redPaperTexture.jpg") 6 "redPaper").2
  let s := (CreateGLTexture s (decode "blackBookTexture.jpg") 7 "blackBook").2
  let s := (CreateGLTexture s (decode "brownBookTexture.jpg") 8 "brownBook").2
  s

/-- The `ceramicMaterial` literal of `DefineObjectMaterials`. -/
def ceramicMaterial : OBJECT_MATERIAL :=
  { ambientColor := (0.7, 0.7, 0.7), ambientStrength := 0.05,
    diffuseColor := (0.7, 0.7, 0.7), specularColor := (0.8, 0.8, 0.8),
    shininess := 4.0, tag := "ceramic" }

/-- The `marbleMaterial` literal of `DefineObjectMaterials`. -/
def marbleMaterial : OBJECT_MATERIAL :=
  { ambientColor := (0.05, 0.05, 0.05), ambientStrength := 0.1,
    diffuseColor := (0.1, 0.1, 0.1), specularColor := (0.7, 0.7, 0.7),
    shininess := 20.0, tag := "marble" }

/-- The `paperMaterial` literal of `DefineObjectMaterials`. -/
def paperMaterial : OBJECT_MATERIAL :=
  { ambientColor := (0.7, 0.7, 0.65), ambientStrength := 0.1,
    diffuseColor := (1.0, 1.0, 0.9), specularColor := (0.2, 0.2, 0.2),
    shininess := 2.0, tag := "paper" }

/-- The `plasticMaterial` literal of `DefineObjectMaterials`. -/
def plasticMaterial : OBJECT_MATERIAL :=
  { ambientColor := (0.05, 0.05, 0.05), ambientStrength := 0.1,
    diffuseColor := (0.4, 0.4, 0.4), specularColor := (0.7, 0.7, 0.7),
    shininess := 60.0, tag := "plastic" }

/-- The `dullPlasticMaterial` literal of `DefineObjectMaterials`. -/
def dullPlasticMaterial : OBJECT_MATERIAL :=
  { ambientColor := (0.05, 0.05, 0.05), ambientStrength := 0.1,
    diffuseColor := (0.4, 0.4, 0.4), specularColor := (0.7, 0.7, 0.7),
    shininess := 20.0, tag := "dullPlastic" }

/-- The `glassMaterial` literal of `DefineObjectMaterials`. -/
def glassMaterial : OBJECT_MATERIAL :=
  { ambientColor := (0.1, 0.1, 0.1), ambientStrength := 0.1,
    diffuseColor := (0.2, 0.2, 0.2), specularColor := (0.9, 0.9, 0.9),
    shininess := 100.0, tag := "glass" }

/-- Embeds `SceneManager::DefineObjectMaterials`: pushes the six material literals
onto `m_objectMaterials` in source order. -/
def DefineObjectMaterials (s : SceneManagerState) : SceneManagerState :=
  { s with objectMaterials := s.objectMaterials ++
      [ceramicMaterial, marbleMaterial, paperMaterial,
       plasticMaterial, dullPlasticMaterial, glassMaterial] }

/-- One configured light source: the six uniform stores
`lightSources[i].position / ambientColor / diffuseColor / specularColor /
focalStrength / specularIntensity` of `SetupSceneLights`. -/
structure LightConfig where
  position : ℚ × ℚ × ℚ
  ambientColor : ℚ × ℚ × ℚ
  diffuseColor : ℚ × ℚ × ℚ
  specularColor : ℚ × ℚ × ℚ
  focalStrength : ℚ
  specularIntensity : ℚ
  deriving DecidableEq

/-- Embeds `SceneManager::SetupSceneLights`: the four light-source uniform blocks
published in source order (indices 0–3), followed by enabling
`bUseLighting`. -/
def SetupSceneLights : List LightConfig :=
  [{ position := (-20, 15, -16.5), ambientColor := (0.2, 0.2, 0.2),
     diffuseColor := (1.0, 0.95, 0.9), specularColor := (1.0, 0.95, 0.9),
     focalStrength := 10.0, specularIntensity := 0.2 },
   { position := (-20, 6, -16.5), ambientColor := (0.2, 0.2, 0.2),
     diffuseColor := (0.8, 0.75, 0.7), specularColor := (0.5, 0.5, 0.5),
     focalStrength := 0.01, specularIntensity := 0.0 },
   { position := (20, 15, -16.5), ambientColor := (0.2, 0.2, 0.2),
     diffuseColor := (1.0, 0.95, 0.9), specularColor := (1.0, 0.95, 0.9),
     focalStrength := 10.0, specularIntensity := 0.2 },
   { position := (20, 6, -16.5), ambientColor := (0.2, 0.2, 0.2),
     diffuseColor := (0.8, 0.75, 0.7), specularColor := (0.5, 0.5, 0.5),
     focalStrength := 0.01, specularIntensity := 0.0 }]

/-- The mesh kinds `PrepareScene` asks the provider to load, in source
order; each is loaded exactly once however many placements draw it. -/
def sceneMeshLoads : List MeshKind :=
  [.plane, .taperedCylinder, .torus, .cylinder, .cone, .box]

/-- Embeds `SceneManager::PrepareScene` state effect: load the scene textures,
then define the object materials (light uniforms and mesh loads touch no
`SceneManager` state; they are `SetupSceneLights` and `sceneMeshLoads`). -/
def PrepareScene (decode : String → DecodeResult) : SceneManagerState :=
  DefineObjectMaterials (LoadSceneTextures decode initialSceneState)

/-- The reference scenario of the spec: every scene image decodes
successfully as RGB. -/
def referenceDecode : String → DecodeResult :=
  fun _ => .success 1024 1024 3

/-- Scene state after `PrepareScene` in the reference scenario. -/
def referenceState : SceneManagerState :=
  PrepareScene referenceDecode

/-- Embeds `SceneManager::RenderScene`: the fifteen transform/bind/draw sections
in source order.  Every `SetShaderMaterial` call declares its own
uninitialized local `OBJECT_MATERIAL`; `localInit` stands for its
indeterminate initial contents (never published when every tag resolves).
The final section (back right window plane) sets only the transformations
and draws, with no texture or material call. -/
def RenderScene (s : SceneManagerState) (localInit : OBJECT_MATERIAL) :
    List TraceEvent :=
  -- Table Plane
  SetTransformations 10.0 1.0 9.0 0.0 0.0 0.0 0.0 1.0 0.0
    ++ SetShaderTexture s "table" ++ SetShaderMaterial s localInit "marble"
    ++ [.draw .plane]
  -- Mug Bottom Tapered Cylinder
  ++ SetTransformations 1.0 0.8 1.0 180.0 0.0 0.0 4.0 1.8 (-1.0)
    ++ SetShaderTexture s "mug" ++ SetShaderMaterial s localInit "ceramic"
    ++ [.draw .taperedCylinder]
  -- Mug Handle Torus
  ++ SetTransformations 0.6 0.7 1.0 180.0 0.0 0.0 5.0 2.4 (-1.0)
    ++ SetShaderTexture s "mug" ++ SetShaderMaterial s localInit "ceramic"
    ++ [.draw .torus]
  -- Mug Cylinder
  ++ SetTransformations 1.0 1.8 1.0 180.0 0.0 0.0 4.0 3.6 (-1.0)
    ++ SetShaderTexture s "mug" ++ SetShaderMaterial s localInit "ceramic"
    ++ [.draw .cylinder]
  -- Blue Book Box
  ++ SetTransformations 6.0 0.275 3.75 0.0 90.0 0.0 0.0 1.1 1.0
    ++ SetShaderTexture s "bluePlastic" ++ SetShaderMaterial s localInit "dullPlastic"
    ++ [.draw .box]
  -- Bottom Brown Book Box
  ++ SetTransformations 6.4 0.6 3.75 0.0 0.0 0.0 (-2.0) 1.2 (-4.4)
    ++ SetShaderTexture s "brownBook" ++ SetShaderMaterial s localInit "paper"
    ++ [.draw .box]
  -- Middle Black Book Box
  ++ SetTransformations 5.7 0.5 3.25 0.0 (-10.0) 0.0 (-2.2) 1.7 (-4.4)
    ++ SetShaderTexture s "blackBook" ++ SetShaderMaterial s localInit "paper"
    ++ [.draw .box]
  -- Bottom Black Book Box
  ++ SetTransformations 5.7 0.5 3.25 0.0 20.0 0.0 (-2.2) 2.2 (-4.4)
    ++ SetShaderTexture s "blackBook" ++ SetShaderMaterial s localInit "paper"
    ++ [.draw .box]
  -- Trail Mix Container Box
  ++ SetTransformations 2.0 2.7 2.0 0.0 0.0 0.0 (-4.0) 2.0 (-0.5)
    ++ SetShaderTexture s "redPaper" ++ SetShaderMaterial s localInit "paper"
    ++ [.draw .box]
  -- Trail Mix Lid Cylinder
  ++ SetTransformations 1.09 0.4 1.09 0.0 0.0 0.0 (-4.0) 3.35 (-0.5)
    ++ SetShaderTexture s "blackPlastic" ++ SetShaderMaterial s localInit "plastic"
    ++ [.draw .cylinder]
  -- Main Pen Cylinder
  ++ SetTransformations 0.05 2.0 0.05 90.0 0.0 64.0 0.9 1.33 1.0
    ++ SetShaderTexture s "blackPlastic" ++ SetShaderMaterial s localInit "plastic"
    ++ [.draw .cylinder]
  -- Pen Tip Cone
  ++ SetTransformations 0.05 0.12 0.05 90.0 0.0 64.0 (-0.9) 1.33 1.877
    ++ SetShaderTexture s "blackPlastic" ++ SetShaderMaterial s localInit "plastic"
    ++ [.draw .cone]
  -- Pen Top Tapered Cylinder
  ++ SetTransformations 0.05 0.09 0.05 90.0 0.0 244.0 0.90 1.33 1.0
    ++ SetShaderTexture s "blackPlastic" ++ SetShaderMaterial s localInit "plastic"
    ++ [.draw .taperedCylinder]
  -- Back Left Window Plane
  ++ SetTransformations 6.0 1.0 9.0 90.0 0.0 0.0 (-20.0) 6.0 (-17.0)
    ++ SetShaderTexture s "whitePlastic" ++ SetShaderMaterial s localInit "plastic"
    ++ [.draw .plane]
  -- Back Right Window Plane: transformations and draw only
  ++ SetTransformations 6.0 1.0 9.0 90.0 0.0 0.0 20.0 6.0 (-17.0)
    ++ [.draw .plane]

/-- Whether a trace event is a mesh draw request. -/
def TraceEvent.isDraw : TraceEvent → Bool
  | .draw _ => true
  | _ => false

/-- Whether a trace event publishes the `UVscale` uniform. -/
def TraceEvent.isUVScale : TraceEvent → Bool
  | .setUVScale _ _ => true
  | _ => false

/-- An `OBJECT_MATERIAL` value standing for one possible content of the
default-constructed local in `SetShaderMaterial` (its fields are
indeterminate in the source). -/
def junkMaterial : OBJECT_MATERIAL :=
  { ambientColor := (0, 0, 0), ambientStrength := 0,
    diffuseColor := (0, 0, 0), specularColor := (0, 0, 0),
    shininess := 0, tag := "" }

/-! ### View Controller (ViewManager.cpp), embedded over the reals -/

noncomputable section

/-- Embeds `glm::radians`: degrees to radians. -/
def radians (d : ℝ) : ℝ := d * Real.pi / 180

/-- Euclidean length of a 3-vector, as `glm::length` computes it. -/
def glmLength (v : Fin 3 → ℝ) : ℝ :=
  Real.sqrt (v 0 ^ 2 + v 1 ^ 2 + v 2 ^ 2)

/-- Embeds `glm::normalize`: divide each component by the length. -/
def glmNormalize (v : Fin 3 → ℝ) : Fin 3 → ℝ :=
  fun i => v i / glmLength v

/-- Embeds `glm::cross` for 3-vectors. -/
def glmCross (a b : Fin 3 → ℝ) : Fin 3 → ℝ :=
  ![a 1 * b 2 - a 2 * b 1, a 2 * b 0 - a 0 * b 2, a 0 * b 1 - a 1 * b 0]

/-- The camera entity: the fields of the external `Camera` class that
`ViewManager` reads and writes. -/
structure Camera where
  Position : Fin 3 → ℝ
  Front : Fin 3 → ℝ
  Up : Fin 3 → ℝ
  Zoom : ℝ
  MovementSpeed : ℝ

/-- The View Controller state: the camera plus the namespace-scope globals
of ViewManager.cpp (`gLastX`, `gLastY`, `gFirstMouse`, `yaw`, `pitch`,
`bOrthographicProjection`) and the window-close request flag. -/
structure ViewState where
  camera : Camera
  gLastX : ℝ
  gLastY : ℝ
  gFirstMouse : Bool
  yaw : ℝ
  pitch : ℝ
  bOrthographicProjection : Bool
  windowShouldClose : Bool

/-- State at program start, after `ViewManager::ViewManager` ran: the
constructor's camera values (note `Front = (0, -0.5, -2)` is not
normalized) and the globals' static initializers — `gLastX/gLastY` at the
window center (1000/2, 800/2), `gFirstMouse = true`, `yaw = -89`,
`pitch = 0`, perspective projection. -/
def initialViewState : ViewState :=
  { camera :=
      { Position := ![0.0, 5.0, 12.0], Front := ![0.0, -0.5, -2.0],
        Up := ![0.0, 1.0, 0.0], Zoom := 80, MovementSpeed := 0.1 },
    gLastX := 500, gLastY := 400, gFirstMouse := true,
    yaw := -89.0, pitch := 0.0,
    bOrthographicProjection := false, windowShouldClose := false }

/-- The camera direction vector computed from yaw and pitch at the end of
the cursor callback (spherical-to-Cartesian, angles in degrees). -/
def dirFromYawPitch (yaw pitch : ℝ) : Fin 3 → ℝ :=
  ![Real.cos (radians yaw) * Real.cos (radians pitch),
    Real.sin (radians pitch),
    Real.sin (radians yaw) * Real.cos (radians pitch)]

/-- Clamping of the updated pitch: the two `if` statements that pin it to
89 from above and -89 from below. -/
def clampPitch (p : ℝ) : ℝ :=
  let p1 := if p > 89.0 then 89.0 else p
  if p1 < -89.0 then -89.0 else p1

/-- Embeds `ViewManager::Mouse_Position_Callback`: on the first invocation seed
`gLastX/gLastY` from the incoming position and clear `gFirstMouse` (the
code then falls through); compute the cursor delta against the previous
sample, store the new position, scale the delta by the 0.1 sensitivity,
accumulate into yaw and pitch, clamp pitch to ±89, and recompute (and
normalize) the camera front from yaw and pitch.  The cursor-lock call is a
windowing side effect with no model state. -/
def Mouse_Position_Callback (xMousePos yMousePos : ℝ) (s : ViewState) :
    ViewState :=
  let lastX := if s.gFirstMouse then xMousePos else s.gLastX
  let lastY := if s.gFirstMouse then yMousePos else s.gLastY
  let xOffset := (xMousePos - lastX) * 0.1
  let yOffset := (lastY - yMousePos) * 0.1
  let newYaw := s.yaw + xOffset
  let newPitch := clampPitch (s.pitch + yOffset)
  { s with
    gLastX := xMousePos, gLastY := yMousePos, gFirstMouse := false,
    yaw := newYaw, pitch := newPitch,
    camera :=
      { s.camera with Front := glmNormalize (dirFromYawPitch newYaw newPitch) } }

/-- Embeds `scrollCallback`: add `yOffset * 0.1` to the movement speed, then pin
it to 0.1 from below and 1.0 from above. -/
def scrollCallback (xOffset yOffset : ℝ) (s : ViewState) : ViewState :=
  let sp0 := s.camera.MovementSpeed + yOffset * 0.1
  let sp1 := if sp0 < 0.1 then 0.1 else sp0
  let sp2 := if sp1 > 1.0 then 1.0 else sp1
  { s with camera := { s.camera with MovementSpeed := sp2 } }

/-- Which keys `glfwGetKey` reports as pressed during one
`ProcessKeyboardEvents` call. -/
structure KeyState where
  keyEscape : Bool
  keyW : Bool
  keyS : Bool
  keyA : Bool
  keyD : Bool
  keyQ : Bool
  keyE : Bool
  keyP : Bool
  keyO : Bool

/-- Embeds `ViewManager::ProcessKeyboardEvents`: request close on escape; move
the camera along front (W/S), along the normalized cross of front and up
(A/D) and along up (Q/E), each scaled by the movement speed; then the P
branch clears `bOrthographicProjection` and the O branch sets it, in that
order.  (The camera is always present in the embedding, so the null-camera
early return never fires.) -/
def ProcessKeyboardEvents (keys : KeyState) (s : ViewState) : ViewState :=
  let s := if keys.keyEscape then { s with windowShouldClose := true } else s
  let cam := s.camera
  let cam := if keys.keyW then
      { cam with Position := cam.Position + cam.MovementSpeed • cam.Front }
    else cam
  let cam := if keys.keyS then
      { cam with Position := cam.Position - cam.MovementSpeed • cam.Front }
    else cam
  let cam := if keys.keyA then
      { cam with Position :=
          cam.Position - cam.MovementSpeed • glmNormalize (glmCross cam.Front cam.Up) }
    else cam
  let cam := if keys.keyD then
      { cam with Position :=
          cam.Position + cam.MovementSpeed • glmNormalize (glmCross cam.Front cam.Up) }
    else cam
  let cam := if keys.keyQ then
      { cam with Position := cam.Position + cam.MovementSpeed • cam.Up }
    else cam
  let cam := if keys.keyE then
      { cam with Position := cam.Position - cam.MovementSpeed • cam.Up }
    else cam
  let ortho := s.bOrthographicProjection
  let ortho := if keys.keyP then false else ortho
  let ortho := if keys.keyO then true else ortho
  { s with camera := cam, bOrthographicProjection := ortho }

/-- A sequence of cursor-position callback invocations, applied in order. -/
def runMouseInputs (inputs : List (ℝ × ℝ)) (s : ViewState) : ViewState :=
  inputs.foldl (fun st q => Mouse_Position_Callback q.1 q.2 st) s

/-- A sequence of scroll callback invocations, applied in order. -/
def runScrollInputs (inputs : List (ℝ × ℝ)) (s : ViewState) : ViewState :=
  inputs.foldl (fun st q => scrollCallback q.1 q.2 st) s

/-! ### The model matrix of SetTransformations, over the reals -/

/-- A homogeneous 4-component vector, as `glm::vec4`. -/
structure Vec4 where
  x : ℝ
  y : ℝ
  z : ℝ
  w : ℝ

/-- A 4x4 matrix of reals, written row by row in ordinary mathematical
layout (`mRC` is row R, column C), the linear map that a `glm::mat4`
denotes under `M * v` with column vectors. -/
structure Mat4 where
  m00 : ℝ
  m01 : ℝ
  m02 : ℝ
  m03 : ℝ
  m10 : ℝ
  m11 : ℝ
  m12 : ℝ
  m13 : ℝ
  m20 : ℝ
  m21 : ℝ
  m22 : ℝ
  m23 : ℝ
  m30 : ℝ
  m31 : ℝ
  m32 : ℝ
  m33 : ℝ

/-- Matrix product, row-by-column, as glm's `operator*` computes it. -/
def Mat4.mul (a b : Mat4) : Mat4 where
  m00 := a.m00 * b.m00 + a.m01 * b.m10 + a.m02 * b.m20 + a.m03 * b.m30
  m01 := a.m00 * b.m01 + a.m01 * b.m11 + a.m02 * b.m21 + a.m03 * b.m31
  m02 := a.m00 * b.m02 + a.m01 * b.m12 + a.m02 * b.m22 + a.m03 * b.m32
  m03 := a.m00 * b.m03 + a.m01 * b.m13 + a.m02 * b.m23 + a.m03 * b.m33
  m10 := a.m10 * b.m00 + a.m11 * b.m10 + a.m12 * b.m20 + a.m13 * b.m30
  m11 := a.m10 * b.m01 + a.m11 * b.m11 + a.m12 * b.m21 + a.m13 * b.m31
  m12 := a.m10 * b.m02 + a.m11 * b.m12 + a.m12 * b.m22 + a.m13 * b.m32
  m13 := a.m10 * b.m03 + a.m11 * b.m13 + a.m12 * b.m23 + a.m13 * b.m33
  m20 := a.m20 * b.m00 + a.m21 * b.m10 + a.m22 * b.m20 + a.m23 * b.m30
  m21 := a.m20 * b.m01 + a.m21 * b.m11 + a.m22 * b.m21 + a.m23 * b.m31
  m22 := a.m20 * b.m02 + a.m21 * b.m12 + a.m22 * b.m22 + a.m23 * b.m32
  m23 := a.m20 * b.m03 + a.m21 * b.m13 + a.m22 * b.m23 + a.m23 * b.m33
  m30 := a.m30 * b.m00 + a.m31 * b.m10 + a.m32 * b.m20 + a.m33 * b.m30
  m31 := a.m30 * b.m01 + a.m31 * b.m11 + a.m32 * b.m21 + a.m33 * b.m31
  m32 := a.m30 * b.m02 + a.m31 * b.m12 + a.m32 * b.m22 + a.m33 * b.m32
  m33 := a.m30 * b.m03 + a.m31 * b.m13 + a.m32 * b.m23 + a.m33 * b.m33

/-- Matrix-vector application `M * v` for a column vector. -/
def Mat4.apply (a : Mat4) (v : Vec4) : Vec4 where
  x := a.m00 * v.x + a.m01 * v.y + a.m02 * v.z + a.m03 * v.w
  y := a.m10 * v.x + a.m11 * v.y + a.m12 * v.z + a.m13 * v.w
  z := a.m20 * v.x + a.m21 * v.y + a.m22 * v.z + a.m23 * v.w
  w := a.m30 * v.x + a.m31 * v.y + a.m32 * v.z + a.m33 * v.w

/-- Embeds `glm::scale`: diagonal scaling. -/
def scaleMat (sx sy sz : ℝ) : Mat4 :=
  ⟨sx, 0, 0, 0,
   0, sy, 0, 0,
   0, 0, sz, 0,
   0, 0, 0, 1⟩

/-- Embeds `glm::rotate` about the X axis (angle in radians). -/
def rotationXMat (t : ℝ) : Mat4 :=
  ⟨1, 0, 0, 0,
   0, Real.cos t, -Real.sin t, 0,
   0, Real.sin t, Real.cos t, 0,
   0, 0, 0, 1⟩

/-- Embeds `glm::rotate` about the Y axis (angle in radians). -/
def rotationYMat (t : ℝ) : Mat4 :=
  ⟨Real.cos t, 0, Real.sin t, 0,
   0, 1, 0, 0,
   -Real.sin t, 0, Real.cos t, 0,
   0, 0, 0, 1⟩

/-- Embeds `glm::rotate` about the Z axis (angle in radians). -/
def rotationZMat (t : ℝ) : Mat4 :=
  ⟨Real.cos t, -Real.sin t, 0, 0,
   Real.sin t, Real.cos t, 0, 0,
   0, 0, 1, 0,
   0, 0, 0, 1⟩

/-- Embeds `glm::translate`. -/
def translationMat (px py pz : ℝ) : Mat4 :=
  ⟨1, 0, 0, px,
   0, 1, 0, py,
   0, 0, 1, pz,
   0, 0, 0, 1⟩

/-- The matrix `SceneManager::SetTransformations` publishes as the `model`
uniform: `translation * rotationX * rotationY * rotationZ * scale`
(glm `operator*` associates from the left), with the rotation angles given
in degrees and converted by `glm::radians`. -/
def modelMatrix (sx sy sz rx ry rz px py pz : ℝ) : Mat4 :=
  ((((translationMat px py pz).mul (rotationXMat (radians rx))).mul
      (rotationYMat (radians ry))).mul
    (rotationZMat (radians rz))).mul
    (scaleMat sx sy sz)

end

/-! ### Auxiliary definitions used by the theorems -/

/-- The texture table and material list that `PrepareScene` produces in the
reference scenario, written out: the eight tags occupy slots 0–7 in load
order, the six materials sit in definition order. -/
def referenceStateExplicit : SceneManagerState :=
  { textureIDs :=
      [⟨"mug", 1⟩, ⟨"table", 2⟩, ⟨"blackPlastic", 3⟩, ⟨"whitePlastic", 4⟩,
       ⟨"bluePlastic", 5⟩, ⟨"redPaper", 6⟩, ⟨"blackBook", 7⟩, ⟨"brownBook", 8⟩],
    objectMaterials :=
      [ceramicMaterial, marbleMaterial, paperMaterial,
       plasticMaterial, dullPlasticMaterial, glassMaterial] }

/-- The event block one fully bound placement emits: model matrix
parameters, use-texture flag, resolved sampler slot, the five resolved
material fields, then the draw request. -/
def publishedBlock (sx sy sz rx ry rz px py pz : ℚ) (slot : Int)
    (m : OBJECT_MATERIAL) (k : MeshKind) : List TraceEvent :=
  [.setMat4Model sx sy sz rx ry rz px py pz,
   .setUseTexture true, .setSampler slot,
   .setMatAmbientColor m.ambientColor, .setMatAmbientStrength m.ambientStrength,
   .setMatDiffuseColor m.diffuseColor, .setMatSpecularColor m.specularColor,
   .setMatShininess m.shininess, .draw k]

/-- The event block a placement with no texture or material call emits:
model matrix parameters, then the draw request. -/
def bareBlock (sx sy sz rx ry rz px py pz : ℚ) (k : MeshKind) :
    List TraceEvent :=
  [.setMat4Model sx sy sz rx ry rz px py pz, .draw k]

/-- A keyboard sample in which the P and O projection keys are both held
and nothing else is pressed. -/
def bothProjectionKeys : KeyState :=
  { keyEscape := false, keyW := false, keyS := false, keyA := false,
    keyD := false, keyQ := false, keyE := false, keyP := true, keyO := true }

/-! ### Helper lemmas -/

lemma referenceState_eq : referenceState = referenceStateExplicit := by rfl

lemma slot_mug : FindTextureSlot referenceStateExplicit "mug" = 0 := by rfl

lemma slot_table : FindTextureSlot referenceStateExplicit "table" = 1 := by rfl

lemma slot_blackPlastic :
    FindTextureSlot referenceStateExplicit "blackPlastic" = 2 := by rfl

lemma slot_whitePlastic :
    FindTextureSlot referenceStateExplicit "whitePlastic" = 3 := by rfl

lemma slot_bluePlastic :
    FindTextureSlot referenceStateExplicit "bluePlastic" = 4 := by rfl

lemma slot_redPaper :
    FindTextureSlot referenceStateExplicit "redPaper" = 5 := by rfl

lemma slot_blackBook :
    FindTextureSlot referenceStateExplicit "blackBook" = 6 := by rfl

lemma slot_brownBook :
    FindTextureSlot referenceStateExplicit "brownBook" = 7 := by rfl

lemma findEntry_ceramic :
    findMaterialEntry referenceStateExplicit.objectMaterials "ceramic" =
      some ceramicMaterial := by rfl

lemma findEntry_marble :
    findMaterialEntry referenceStateExplicit.objectMaterials "marble" =
      some marbleMaterial := by rfl

lemma findEntry_paper :
    findMaterialEntry referenceStateExplicit.objectMaterials "paper" =
      some paperMaterial := by rfl

lemma findEntry_plastic :
    findMaterialEntry referenceStateExplicit.objectMaterials "plastic" =
      some plasticMaterial := by rfl

lemma findEntry_dullPlastic :
    findMaterialEntry referenceStateExplicit.objectMaterials "dullPlastic" =
      some dullPlasticMaterial := by rfl

lemma matListLen : referenceStateExplicit.objectMaterials.length = 6 := by rfl

/-- The full trace of one `RenderScene` pass over the reference scene,
decomposed into its fifteen per-placement blocks; the trace does not depend
on the indeterminate local material, since every tag resolves. -/
lemma renderScene_reference_trace (localInit : OBJECT_MATERIAL) :
    RenderScene referenceState localInit =
      publishedBlock 10.0 1.0 9.0 0.0 0.0 0.0 0.0 1.0 0.0 1 marbleMaterial .plane
      ++ publishedBlock 1.0 0.8 1.0 180.0 0.0 0.0 4.0 1.8 (-1.0) 0 ceramicMaterial .taperedCylinder
      ++ publishedBlock 0.6 0.7 1.0 180.0 0.0 0.0 5.0 2.4 (-1.0) 0 ceramicMaterial .torus
      ++ publishedBlock 1.0 1.8 1.0 180.0 0.0 0.0 4.0 3.6 (-1.0) 0 ceramicMaterial .cylinder
      ++ publishedBlock 6.0 0.275 3.75 0.0 90.0 0.0 0.0 1.1 1.0 4 dullPlasticMaterial .box
      ++ publishedBlock 6.4 0.6 3.75 0.0 0.0 0.0 (-2.0) 1.2 (-4.4) 7 paperMaterial .box
      ++ publishedBlock 5.7 0.5 3.25 0.0 (-10.0) 0.0 (-2.2) 1.7 (-4.4) 6 paperMaterial .box
      ++ publishedBlock 5.7 0.5 3.25 0.0 20.0 0.0 (-2.2) 2.2 (-4.4) 6 paperMaterial .box
      ++ publishedBlock 2.0 2.7 2.0 0.0 0.0 0.0 (-4.0) 2.0 (-0.5) 5 paperMaterial .box
      ++ publishedBlock 1.09 0.4 1.09 0.0 0.0 0.0 (-4.0) 3.35 (-0.5) 2 plasticMaterial .cylinder
      ++ publishedBlock 0.05 2.0 0.05 90.0 0.0 64.0 0.9 1.33 1.0 2 plasticMaterial .cylinder
      ++ publishedBlock 0.05 0.12 0.05 90.0 0.0 64.0 (-0.9) 1.33 1.877 2 plasticMaterial .cone
      ++ publishedBlock 0.05 0.09 0.05 90.0 0.0 244.0 0.90 1.33 1.0 2 plasticMaterial .taperedCylinder
      ++ publishedBlock 6.0 1.0 9.0 90.0 0.0 0.0 (-20.0) 6.0 (-17.0) 3 plasticMaterial .plane
      ++ bareBlock 6.0 1.0 9.0 90.0 0.0 0.0 20.0 6.0 (-17.0) .plane := by
  rw [referenceState_eq]
  simp only [RenderScene, SetTransformations, SetShaderTexture, SetShaderMaterial,
    FindMaterial, matListLen, publishedBlock, bareBlock,
    slot_mug, slot_table, slot_blackPlastic, slot_whitePlastic, slot_bluePlastic,
    slot_redPaper, slot_blackBook, slot_brownBook,
    findEntry_ceramic, findEntry_marble, findEntry_paper, findEntry_plastic,
    findEntry_dullPlastic, Option.getD_some]
  simp

lemma findSlotAux_no_match {l : List TextureEntry} {tag : String}
    (h : ∀ e ∈ l, e.tag ≠ tag) : ∀ k : Int, findSlotAux l tag k = -1 := by
  induction l with
  | nil => intro k; rfl
  | cons e rest ih =>
    intro k
    have he : e.tag ≠ tag := h e (List.mem_cons_self e rest)
    simp only [findSlotAux, if_neg he]
    exact ih (fun x hx => h x (List.mem_cons_of_mem e hx)) (k + 1)

lemma findIDAux_no_match {l : List TextureEntry} {tag : String}
    (h : ∀ e ∈ l, e.tag ≠ tag) : findIDAux l tag = -1 := by
  induction l with
  | nil => rfl
  | cons e rest ih =>
    have he : e.tag ≠ tag := h e (List.mem_cons_self e rest)
    simp only [findIDAux, if_neg he]
    exact ih (fun x hx => h x (List.mem_cons_of_mem e hx))

lemma findSlotAux_first_match :
    ∀ (l : List TextureEntry) (tag : String) (i : ℕ) (hi : i < l.length),
      (l.get ⟨i, hi⟩).tag = tag →
      (∀ e ∈ l.take i, e.tag ≠ tag) →
      ∀ k : Int, findSlotAux l tag k = k + i := by
  intro l
  induction l with
  | nil => intro tag i hi; exact absurd hi (by simp)
  | cons e rest ih =>
    intro tag i hi hmatch hbefore k
    cases i with
    | zero =>
      simp only [List.get] at hmatch
      simp [findSlotAux, hmatch]
    | succ j =>
      have he : e.tag ≠ tag := by
        apply hbefore
        simp [List.take]
      simp only [findSlotAux, if_neg he]
      have hj : j < rest.length := by
        simpa using hi
      have hmatch2 : (rest.get ⟨j, hj⟩).tag = tag := hmatch
      have hbefore2 : ∀ x ∈ rest.take j, x.tag ≠ tag := by
        intro x hx
        exact hbefore x (by simp [List.take, hx])
      have hrec := ih tag j hj hmatch2 hbefore2 (k + 1)
      rw [hrec]
      push_cast
      ring

lemma glmLength_dirFromYawPitch (y p : ℝ) :
    glmLength (dirFromYawPitch y p) = 1 := by
  unfold glmLength dirFromYawPitch
  have h : (Real.cos (radians y) * Real.cos (radians p)) ^ 2 +
      Real.sin (radians p) ^ 2 +
      (Real.sin (radians y) * Real.cos (radians p)) ^ 2 = 1 := by
    have h1 := Real.sin_sq_add_cos_sq (radians y)
    have h2 := Real.sin_sq_add_cos_sq (radians p)
    nlinarith [h1, h2]
  simp only [Matrix.cons_val_zero, Matrix.cons_val_one, Matrix.head_cons,
    Matrix.cons_val_two, Matrix.tail_cons]
  rw [h, Real.sqrt_one]

lemma glmNormalize_dir_one (y p : ℝ) :
    glmNormalize (dirFromYawPitch y p) 1 = Real.sin (radians p) := by
  unfold glmNormalize
  rw [glmLength_dirFromYawPitch]
  simp [dirFromYawPitch]

lemma glmNormalize_of_length_one {v : Fin 3 → ℝ} (h : glmLength v = 1) :
    glmNormalize v = v := by
  funext i
  simp [glmNormalize, h]

lemma clampPitch_bounds (p : ℝ) : -89 ≤ clampPitch p ∧ clampPitch p ≤ 89 := by
  simp only [clampPitch]
  split_ifs <;> constructor <;> norm_num <;> linarith

lemma mouse_pitch_step (s : ViewState) (x y : ℝ) :
    -89 ≤ (Mouse_Position_Callback x y s).pitch ∧
    (Mouse_Position_Callback x y s).pitch ≤ 89 := by
  simp only [Mouse_Position_Callback]
  exact clampPitch_bounds _

lemma runMouse_pitch_inv (inputs : List (ℝ × ℝ)) (s : ViewState)
    (h : -89 ≤ s.pitch ∧ s.pitch ≤ 89) :
    -89 ≤ (runMouseInputs inputs s).pitch ∧
    (runMouseInputs inputs s).pitch ≤ 89 := by
  induction inputs generalizing s with
  | nil => exact h
  | cons q rest ih => exact ih _ (mouse_pitch_step s q.1 q.2)

lemma scroll_speed_step (s : ViewState) (x y : ℝ) :
    0.1 ≤ (scrollCallback x y s).camera.MovementSpeed ∧
    (scrollCallback x y s).camera.MovementSpeed ≤ 1 := by
  simp only [scrollCallback]
  split_ifs <;> constructor <;> norm_num <;> linarith

lemma runScroll_speed_inv (inputs : List (ℝ × ℝ)) (s : ViewState)
    (h : 0.1 ≤ s.camera.MovementSpeed ∧ s.camera.MovementSpeed ≤ 1) :
    0.1 ≤ (runScrollInputs inputs s).camera.MovementSpeed ∧
    (runScrollInputs inputs s).camera.MovementSpeed ≤ 1 := by
  induction inputs generalizing s with
  | nil => exact h
  | cons q rest ih => exact ih _ (scroll_speed_step s q.1 q.2)

/-! ### Claim theorems -/

/-- C1: the claim says that for a material tag absent from the material
list, `FindMaterial` reports not-found and `SetShaderMaterial` publishes
nothing.  On the populated reference material list the code does the
opposite: the tag "wood" matches no material, yet `FindMaterial` returns
`true` (its not-found result only arises for an empty list), and
`SetShaderMaterial` consequently publishes all five material uniforms from
the uninitialized local record. -/
theorem findMaterial_missing_tag_reports_found_and_publishes :
    (∀ m ∈ referenceState.objectMaterials, m.tag ≠ "wood") ∧
    FindMaterial referenceState "wood" = (true, none) ∧
    SetShaderMaterial referenceState junkMaterial "wood" =
      [.setMatAmbientColor junkMaterial.ambientColor,
       .setMatAmbientStrength junkMaterial.ambientStrength,
       .setMatDiffuseColor junkMaterial.diffuseColor,
       .setMatSpecularColor junkMaterial.specularColor,
       .setMatShininess junkMaterial.shininess] :=
  ⟨by decide, by rfl, by rfl⟩

/-- C2 counterexample: the claim says the very first cursor callback
produces zero change to the camera front for every starting state.  From
the program's actual initial state (constructor front `(0, -0.5, -2)`,
yaw -89, pitch 0), the first callback overwrites the front with the
normalized yaw/pitch direction, which differs from the stored front. -/
theorem first_callback_changes_front_on_initial_state :
    (Mouse_Position_Callback 500 400 initialViewState).camera.Front ≠
      initialViewState.camera.Front := by
  intro hEq
  have h1 := congrFun hEq 1
  norm_num [Mouse_Position_Callback, initialViewState, Matrix.cons_val_one,
    Matrix.head_cons] at h1
  rw [show clampPitch 0 = 0 from by norm_num [clampPitch]] at h1
  rw [glmNormalize_dir_one] at h1
  rw [show radians 0 = 0 from by simp [radians], Real.sin_zero] at h1
  norm_num at h1

/-- C2 (amended): while the first-mouse flag is set, a callback leaves yaw
unchanged and pitch merely clamped (the cursor delta is zero), seeds the
last-cursor position from the incoming position and clears the flag — but
it does not leave the front vector untouched: it recomputes it as the
normalized yaw/pitch direction, so the front changes whenever the stored
front differed from that vector. -/
theorem first_callback_seeds_state_and_recomputes_front
    (s : ViewState) (x y : ℝ) (h : s.gFirstMouse = true) :
    (Mouse_Position_Callback x y s).yaw = s.yaw ∧
    (Mouse_Position_Callback x y s).pitch = clampPitch s.pitch ∧
    (Mouse_Position_Callback x y s).gLastX = x ∧
    (Mouse_Position_Callback x y s).gLastY = y ∧
    (Mouse_Position_Callback x y s).gFirstMouse = false ∧
    (Mouse_Position_Callback x y s).camera.Front =
      glmNormalize (dirFromYawPitch s.yaw (clampPitch s.pitch)) := by
  simp [Mouse_Position_Callback, h]

/-- Witness for C2 (amended) at the program's initial state and the cursor
position (500, 400). -/
theorem first_callback_seeds_state_and_recomputes_front_witness :
    initialViewState.gFirstMouse = true ∧
    ((Mouse_Position_Callback 500 400 initialViewState).yaw =
        initialViewState.yaw ∧
     (Mouse_Position_Callback 500 400 initialViewState).pitch =
        clampPitch initialViewState.pitch ∧
     (Mouse_Position_Callback 500 400 initialViewState).gLastX = 500 ∧
     (Mouse_Position_Callback 500 400 initialViewState).gLastY = 400 ∧
     (Mouse_Position_Callback 500 400 initialViewState).gFirstMouse = false ∧
     (Mouse_Position_Callback 500 400 initialViewState).camera.Front =
        glmNormalize (dirFromYawPitch initialViewState.yaw
          (clampPitch initialViewState.pitch))) :=
  ⟨rfl, first_callback_seeds_state_and_recomputes_front initialViewState 500 400 rfl⟩

/-- C3 counterexample: the claim says one full `RenderScene` pass issues
17 draw calls; the pass issues 15. -/
theorem renderScene_draw_count_not_seventeen :
    ¬ ((RenderScene referenceState junkMaterial).countP
        (fun e => e.isDraw) = 17) := by
  decide

/-- C3 (amended): the one-time setup registers 8 textures, 6 materials,
6 distinct mesh kinds and 4 lights, and one full `RenderScene` pass issues
exactly one draw call per placed object, with 15 placed objects (15 draw
calls), whatever the indeterminate local material holds. -/
theorem scene_setup_counts_and_fifteen_draws :
    referenceState.textureIDs.length = 8 ∧
    referenceState.objectMaterials.length = 6 ∧
    sceneMeshLoads.length = 6 ∧ sceneMeshLoads.Nodup ∧
    SetupSceneLights.length = 4 ∧
    ∀ localInit : OBJECT_MATERIAL,
      (RenderScene referenceState localInit).countP (fun e => e.isDraw) = 15 := by
  refine ⟨by rfl, by rfl, by rfl, by decide, by rfl, fun localInit => ?_⟩
  rw [renderScene_reference_trace localInit]
  simp [publishedBlock, bareBlock, TraceEvent.isDraw]

/-- C4 counterexample: the claim says every placement's fixed sequence
includes publishing a UV-scale pair; a full `RenderScene` pass publishes
no `UVscale` uniform at all while drawing a nonzero number of objects. -/
theorem renderScene_publishes_no_uv_scale :
    (RenderScene referenceState junkMaterial).countP
        (fun e => e.isUVScale) = 0 ∧
    (RenderScene referenceState junkMaterial).countP
        (fun e => e.isDraw) ≠ 0 := by
  decide

/-- C4 (amended): per placement, `RenderScene` publishes the model-matrix
parameters, marks the use-texture flag, publishes the resolved texture
slot and the resolved material's five uniform fields, and invokes the draw
for the object's mesh kind — except that no UV-scale pair is ever
published, and the final placement (the back right window plane) publishes
only the model matrix before its draw. -/
theorem renderScene_per_object_sequence (localInit : OBJECT_MATERIAL) :
    RenderScene referenceState localInit =
      publishedBlock 10.0 1.0 9.0 0.0 0.0 0.0 0.0 1.0 0.0 1 marbleMaterial .plane
      ++ publishedBlock 1.0 0.8 1.0 180.0 0.0 0.0 4.0 1.8 (-1.0) 0 ceramicMaterial .taperedCylinder
      ++ publishedBlock 0.6 0.7 1.0 180.0 0.0 0.0 5.0 2.4 (-1.0) 0 ceramicMaterial .torus
      ++ publishedBlock 1.0 1.8 1.0 180.0 0.0 0.0 4.0 3.6 (-1.0) 0 ceramicMaterial .cylinder
      ++ publishedBlock 6.0 0.275 3.75 0.0 90.0 0.0 0.0 1.1 1.0 4 dullPlasticMaterial .box
      ++ publishedBlock 6.4 0.6 3.75 0.0 0.0 0.0 (-2.0) 1.2 (-4.4) 7 paperMaterial .box
      ++ publishedBlock 5.7 0.5 3.25 0.0 (-10.0) 0.0 (-2.2) 1.7 (-4.4) 6 paperMaterial .box
      ++ publishedBlock 5.7 0.5 3.25 0.0 20.0 0.0 (-2.2) 2.2 (-4.4) 6 paperMaterial .box
      ++ publishedBlock 2.0 2.7 2.0 0.0 0.0 0.0 (-4.0) 2.0 (-0.5) 5 paperMaterial .box
      ++ publishedBlock 1.09 0.4 1.09 0.0 0.0 0.0 (-4.0) 3.35 (-0.5) 2 plasticMaterial .cylinder
      ++ publishedBlock 0.05 2.0 0.05 90.0 0.0 64.0 0.9 1.33 1.0 2 plasticMaterial .cylinder
      ++ publishedBlock 0.05 0.12 0.05 90.0 0.0 64.0 (-0.9) 1.33 1.877 2 plasticMaterial .cone
      ++ publishedBlock 0.05 0.09 0.05 90.0 0.0 244.0 0.90 1.33 1.0 2 plasticMaterial .taperedCylinder
      ++ publishedBlock 6.0 1.0 9.0 90.0 0.0 0.0 (-20.0) 6.0 (-17.0) 3 plasticMaterial .plane
      ++ bareBlock 6.0 1.0 9.0 90.0 0.0 0.0 20.0 6.0 (-17.0) .plane :=
  renderScene_reference_trace localInit

/-- C5 counterexample: the claim says the camera front is a unit vector
immediately after construction; the constructor stores `(0, -0.5, -2)`,
whose length is the square root of 4.25, not 1. -/
theorem initial_front_not_unit :
    glmLength (initialViewState.camera.Front) ≠ 1 := by
  unfold initialViewState glmLength
  intro h
  simp only [Matrix.cons_val_zero, Matrix.cons_val_one, Matrix.head_cons,
    Matrix.cons_val_two, Matrix.tail_cons] at h
  rw [show ((0.0:ℝ) ^ 2 + (-0.5:ℝ) ^ 2 + (-2.0:ℝ) ^ 2) = 4.25 by norm_num] at h
  rw [Real.sqrt_eq_one] at h
  norm_num at h

/-- C5 (amended): after every cursor-callback invocation, from any state
and any cursor position, the camera front is a unit vector (the callback
normalizes the yaw/pitch direction, which is itself of length one); the
unit property does not hold immediately after construction. -/
theorem front_unit_after_every_callback (s : ViewState) (x y : ℝ) :
    glmLength ((Mouse_Position_Callback x y s).camera.Front) = 1 := by
  simp only [Mouse_Position_Callback]
  rw [glmNormalize_of_length_one (glmLength_dirFromYawPitch _ _)]
  exact glmLength_dirFromYawPitch _ _

/-- C6: the model matrix is composed in the fixed order
`translation * rotationX * rotationY * rotationZ * scale`, and at
scale (2,1,1), rotation (0,90,0) degrees and position (1,0,0) it maps the
local point (3,0,0) to (1,0,-6) (exactly, in real arithmetic). -/
theorem modelMatrix_fixed_order_and_sample_point :
    (∀ sx sy sz rx ry rz px py pz : ℝ,
       modelMatrix sx sy sz rx ry rz px py pz =
         ((((translationMat px py pz).mul (rotationXMat (radians rx))).mul
             (rotationYMat (radians ry))).mul
           (rotationZMat (radians rz))).mul (scaleMat sx sy sz)) ∧
    (modelMatrix 2 1 1 0 90 0 1 0 0).apply ⟨3, 0, 0, 1⟩ = ⟨1, 0, -6, 1⟩ := by
  refine ⟨fun _ _ _ _ _ _ _ _ _ => rfl, ?_⟩
  have hr0 : radians 0 = 0 := by simp [radians]
  have hr90 : radians 90 = Real.pi / 2 := by unfold radians; ring
  simp only [modelMatrix, hr0, hr90, Real.cos_pi_div_two, Real.sin_pi_div_two,
    Real.cos_zero, Real.sin_zero, translationMat, rotationXMat, rotationYMat,
    rotationZMat, scaleMat, Mat4.mul, Mat4.apply]
  norm_num

/-- C7: starting from the program's initial state, after every finite
sequence of cursor-position inputs the pitch lies in [-89, 89], and after
every finite sequence of scroll inputs the movement speed lies in
[0.1, 1.0]. -/
theorem pitch_and_speed_always_clamped :
    (∀ inputs : List (ℝ × ℝ),
       -89 ≤ (runMouseInputs inputs initialViewState).pitch ∧
       (runMouseInputs inputs initialViewState).pitch ≤ 89) ∧
    (∀ inputs : List (ℝ × ℝ),
       0.1 ≤ (runScrollInputs inputs initialViewState).camera.MovementSpeed ∧
       (runScrollInputs inputs initialViewState).camera.MovementSpeed ≤ 1) := by
  constructor
  · intro inputs
    exact runMouse_pitch_inv inputs initialViewState (by norm_num [initialViewState])
  · intro inputs
    exact runScroll_speed_inv inputs initialViewState (by norm_num [initialViewState])

/-- C8: when the decoder succeeds but reports a channel count that is
neither 3 nor 4, `CreateGLTexture` returns failure and leaves the table
unchanged, so a tag that was absent before is still absent: both lookups
return the -1 sentinel afterwards. -/
theorem createGLTexture_rejects_bad_channel_count
    (s : SceneManagerState) (w h c newID : Int) (tag : String)
    (h3 : c ≠ 3) (h4 : c ≠ 4)
    (habs : ∀ e ∈ s.textureIDs, e.tag ≠ tag) :
    CreateGLTexture s (.success w h c) newID tag = (false, s) ∧
    FindTextureSlot (CreateGLTexture s (.success w h c) newID tag).2 tag = -1 ∧
    FindTextureID (CreateGLTexture s (.success w h c) newID tag).2 tag = -1 := by
  have heq : CreateGLTexture s (.success w h c) newID tag = (false, s) := by
    simp [CreateGLTexture, h3, h4]
  refine ⟨heq, ?_, ?_⟩
  · rw [heq]
    exact findSlotAux_no_match habs 0
  · rw [heq]
    exact findIDAux_no_match habs

/-- Witness for C8: a 2-channel decode of a fresh tag on the empty initial
table. -/
theorem createGLTexture_rejects_bad_channel_count_witness :
    ((2:Int) ≠ 3) ∧ ((2:Int) ≠ 4) ∧
    (∀ e ∈ initialSceneState.textureIDs, e.tag ≠ "mug") ∧
    (CreateGLTexture initialSceneState (.success 64 64 2) 1 "mug" =
        (false, initialSceneState) ∧
     FindTextureSlot
        (CreateGLTexture initialSceneState (.success 64 64 2) 1 "mug").2 "mug" = -1 ∧
     FindTextureID
        (CreateGLTexture initialSceneState (.success 64 64 2) 1 "mug").2 "mug" = -1) := by
  refine ⟨by decide, by decide, by simp [initialSceneState], ?_⟩
  exact createGLTexture_rejects_bad_channel_count initialSceneState 64 64 2 1 "mug"
    (by decide) (by decide) (by simp [initialSceneState])

/-- C9: `FindTextureSlot` is a first-match linear scan in table order —
if index i holds the first entry whose tag matches, the scan returns i,
and if no loaded entry matches it returns the -1 sentinel — and
`SetShaderTexture` with an unregistered tag therefore publishes -1 as the
texture-slot uniform (after marking the use-texture flag). -/
theorem findTextureSlot_first_match_and_sentinel
    (s : SceneManagerState) (tag : String) :
    (∀ (i : ℕ) (hi : i < s.textureIDs.length),
       (s.textureIDs.get ⟨i, hi⟩).tag = tag →
       (∀ e ∈ s.textureIDs.take i, e.tag ≠ tag) →
       FindTextureSlot s tag = (i : Int)) ∧
    ((∀ e ∈ s.textureIDs, e.tag ≠ tag) →
       FindTextureSlot s tag = -1 ∧
       SetShaderTexture s tag = [.setUseTexture true, .setSampler (-1)]) := by
  constructor
  · intro i hi hmatch hbefore
    have hrun := findSlotAux_first_match s.textureIDs tag i hi hmatch hbefore 0
    simpa [FindTextureSlot] using hrun
  · intro h
    have h1 : FindTextureSlot s tag = -1 := findSlotAux_no_match h 0
    exact ⟨h1, by simp [SetShaderTexture, h1]⟩

/-- Witness for C9: on the reference table, "mug" is found at slot 0, and
the unregistered tag "ghost" resolves to -1 in both the lookup and the
published sampler uniform. -/
theorem findTextureSlot_first_match_and_sentinel_witness :
    FindTextureSlot referenceState "mug" = 0 ∧
    FindTextureSlot referenceState "ghost" = -1 ∧
    SetShaderTexture referenceState "ghost" =
      [.setUseTexture true, .setSampler (-1)] := by
  have hfirst := (findTextureSlot_first_match_and_sentinel referenceState "mug").1
    0 (by decide) (by decide) (by simp)
  have hmiss := (findTextureSlot_first_match_and_sentinel referenceState "ghost").2
    (by decide)
  exact ⟨by simpa using hfirst, hmiss.1, hmiss.2⟩

/-- C10: when the P and O keys are both reported pressed in the same
`ProcessKeyboardEvents` call, the resulting projection mode is
orthographic — the P branch clears the flag before the O branch sets it,
whatever the prior state. -/
theorem both_projection_keys_yield_orthographic
    (keys : KeyState) (s : ViewState)
    (hp : keys.keyP = true) (ho : keys.keyO = true) :
    (ProcessKeyboardEvents keys s).bOrthographicProjection = true := by
  simp [ProcessKeyboardEvents, hp, ho]

/-- Witness for C10: both projection keys held, from the initial state. -/
theorem both_projection_keys_yield_orthographic_witness :
    bothProjectionKeys.keyP = true ∧ bothProjectionKeys.keyO = true ∧
    (ProcessKeyboardEvents bothProjectionKeys
        initialViewState).bOrthographicProjection = true :=
  ⟨rfl, rfl,
   both_projection_keys_yield_orthographic bothProjectionKeys initialViewState rfl rfl⟩
